import Mathlib

/-!
Verification of the eddymotion model module (`src/eddymotion/model.py`):
a shallow embedding of the chunked fit/predict engine (`BaseModel`), the
trivial baseline model (`TrivialB0Model`), the shell-average model
(`AverageDWModel`), the DTI wrapper initialization/predict, and the
gradient-table adapter (`_rasb2dipy`).

Arrays are embedded as (nested) lists of rationals; a 4D volume is a
list (x) of lists (y) of lists (z) of gradient rows; masks are nested
boolean lists.  `np.array_split` is embedded by its documented rule:
splitting a length-`L` axis into `n` sections gives the first `L % n`
sections `L / n + 1` entries and the rest `L / n` entries.
-/

namespace Eddymotion

/-- A 4D signal volume: axes (x, y, z, gradient-sample). -/
abbrev Vol4 := List (List (List (List ℚ)))

/-- A 3D boolean mask with the volume's spatial extent. -/
abbrev Mask3 := List (List (List Bool))

/-- Flatten a 3D mask in C (row-major) order, as numpy boolean indexing does. -/
def flat3 (m : Mask3) : List Bool := m.flatten.flatten

/-- `data.reshape(-1, data.shape[-1])`: flatten the three spatial axes in C
order, leaving one gradient row per voxel. -/
def flatVol (v : Vol4) : List (List ℚ) := v.flatten.flatten

/-- `data.shape` for the nested-list volume (reading lengths along the
leading spine; meaningful for rectangular volumes). -/
def shape4 (v : Vol4) : List Nat :=
  [v.length, (v.headD []).length, ((v.headD []).headD []).length,
   (((v.headD []).headD []).headD []).length]

/-- numpy boolean indexing `l[mask]`: keep the entries of `l` at positions
where `mask` is `true`, in order (mask and array have equal length). -/
def maskSelect {α : Type} (mask : List Bool) (l : List α) : List α :=
  ((mask.zip l).filter (fun p => p.1)).map (fun p => p.2)

/-- `retval = np.zeros_like(mask); retval[mask] = vals`: scatter `vals` in
order into the `true` positions of `mask`, zero elsewhere. -/
def scatter (mask : List Bool) (vals : List ℚ) : List ℚ :=
  match mask with
  | [] => []
  | b :: ms => if b then vals.headD 0 :: scatter ms vals.tail else 0 :: scatter ms vals

/-- The section sizes of `np.array_split` over a length-`L` axis cut into `n`
sections: `L % n` sections of `L / n + 1` entries, then `n - L % n` sections
of `L / n` entries. -/
def splitSizes (L n : Nat) : List Nat :=
  List.replicate (L % n) (L / n + 1) ++ List.replicate (n - L % n) (L / n)

/-- Cut a list into consecutive pieces of the given sizes. -/
def splitBySizes {α : Type} : List Nat → List α → List (List α)
  | [], _ => []
  | s :: ss, l => l.take s :: splitBySizes ss (l.drop s)

/-- `np.array_split(l, n)` along the first axis. -/
def arraySplit {α : Type} (l : List α) (n : Nat) : List (List α) :=
  splitBySizes (splitSizes l.length n) l

theorem splitBySizes_length {α : Type} (ss : List Nat) (l : List α) :
    (splitBySizes ss l).length = ss.length := by
  induction ss generalizing l with
  | nil => rfl
  | cons s ss ih => simp [splitBySizes, ih]

theorem splitSizes_length (L n : Nat) (hn : 1 ≤ n) :
    (splitSizes L n).length = n := by
  have h := Nat.mod_lt L hn
  simp [splitSizes]
  omega

theorem splitSizes_sum (L n : Nat) (hn : 1 ≤ n) :
    (splitSizes L n).sum = L := by
  have hlt : L % n < n := Nat.mod_lt L hn
  have hdm := Nat.div_add_mod L n
  simp [splitSizes, List.sum_replicate, smul_eq_mul]
  calc L % n * (L / n + 1) + (n - L % n) * (L / n)
      = L % n * (L / n) + L % n + (n - L % n) * (L / n) := by ring
    _ = (L % n + (n - L % n)) * (L / n) + L % n := by ring
    _ = n * (L / n) + L % n := by
        congr 2
        omega
    _ = L := hdm

theorem splitBySizes_join {α : Type} (ss : List Nat) (l : List α) :
    (splitBySizes ss l).flatten = l.take ss.sum := by
  induction ss generalizing l with
  | nil => simp [splitBySizes]
  | cons s ss ih =>
      simp only [splitBySizes, List.flatten_cons, ih, List.sum_cons]
      rw [List.take_add]

/-- Reassembling the sections of `np.array_split` in order reproduces the
original list exactly. -/
theorem arraySplit_join {α : Type} (l : List α) (n : Nat) (hn : 1 ≤ n) :
    (arraySplit l n).flatten = l := by
  rw [arraySplit, splitBySizes_join, splitSizes_sum _ _ hn, List.take_length]

theorem arraySplit_length {α : Type} (l : List α) (n : Nat) (hn : 1 ≤ n) :
    (arraySplit l n).length = n := by
  rw [arraySplit, splitBySizes_length, splitSizes_length _ _ hn]

theorem splitBySizes_getD_length {α : Type} (ss : List Nat) (l : List α)
    (hs : ss.sum ≤ l.length) :
    ∀ i, i < ss.length → ((splitBySizes ss l).getD i []).length = ss.getD i 0 := by
  induction ss generalizing l with
  | nil => intro i hi; simp at hi
  | cons s ss ih =>
      intro i hi
      match i with
      | 0 =>
          simp only [splitBySizes, List.getD_cons_zero, List.length_take]
          have : s ≤ l.length := by
            simp [List.sum_cons] at hs
            omega
          omega
      | Nat.succ j =>
          simp only [splitBySizes, List.getD_cons_succ]
          apply ih
          · simp [List.sum_cons] at hs
            simp [List.length_drop]
            omega
          · simpa using hi

theorem splitSizes_getD (L n : Nat) (hn : 1 ≤ n) (i : Nat) (hi : i < n) :
    (splitSizes L n).getD i 0 = if i < L % n then L / n + 1 else L / n := by
  have hlt : L % n < n := Nat.mod_lt L hn
  by_cases h : i < L % n
  · rw [if_pos h, splitSizes, List.getD_append]
    · simp [List.getD_eq_getElem?_getD, List.getElem?_replicate, h]
    · simpa using h
  · rw [if_neg h, splitSizes, List.getD_append_right]
    · have hlt2 : i - L % n < n - L % n := by omega
      simp [List.getD_eq_getElem?_getD, List.getElem?_replicate, hlt2]
    · simp
      omega

/-- Section `i` of `np.array_split l n` has `l.length / n + 1` entries when
`i < l.length % n` and `l.length / n` entries otherwise. -/
theorem arraySplit_getD_length {α : Type} (l : List α) (n : Nat) (hn : 1 ≤ n)
    (i : Nat) (hi : i < n) :
    ((arraySplit l n).getD i []).length =
      if i < l.length % n then l.length / n + 1 else l.length / n := by
  rw [arraySplit, splitBySizes_getD_length]
  · rw [splitSizes_getD _ _ hn _ hi]
  · rw [splitSizes_sum _ _ hn]
  · rw [splitSizes_length _ _ hn]; exact hi

/-- A raw gradient argument as `_rasb2dipy` receives it: a 1D array or a 2D
array (`np.asanyarray` output). -/
inductive RawGrad where
  | one (v : List ℚ)
  | two (m : List (List ℚ))
deriving Repr, DecidableEq

/-- The shape-normalisation tail of `_rasb2dipy`: transpose when the first
dimension is not 4, print the ambiguous-orientation warning when the shape is
exactly (4, 4).  Returns the canonical 4×N matrix and whether the warning was
issued (the trailing `gradient_table` call is an external collaborator and out
of scope). -/
def rasbFinish (m : List (List ℚ)) : List (List ℚ) × Bool :=
  if m.length ≠ 4 then (m.transpose, false)
  else if (m.headD []).length = 4 then (m, true)
  else (m, false)

/-- `_rasb2dipy`: a 1D input of size ≠ 4 raises
`ValueError("Missing gradient information.")`; a 1D input of size 4 becomes a
(4, 1) column; then the 2D shape normalisation of `rasbFinish` runs. -/
def rasb2dipy : RawGrad → Except String (List (List ℚ) × Bool)
  | RawGrad.one v =>
      if v.length ≠ 4 then Except.error "Missing gradient information."
      else Except.ok (rasbFinish (v.map (fun x => [x])))
  | RawGrad.two m => Except.ok (rasbFinish m)

/-- The duck-typed model capability the engine depends on: `fit` over a 2D
voxel×sample block returns a fitted model of the same type, and `predict`
takes the converted gradient and an optional per-voxel `S0` slice, either
producing one value per voxel or raising (`Except.error`). -/
structure DModel (M : Type) where
  mfit : M → List (List ℚ) → M
  mpredict : M → List (List ℚ) → Option (List ℚ) → Except String (List ℚ)

/-- The `BaseModel` slots: `_model`, `_models`, `_mask` (3D), `_S0`
(flattened over the selected voxels) and `_datashape`. -/
structure BMState (M : Type) where
  model : Option M
  models : Option (List M)
  mask : Option Mask3
  S0 : Option (List ℚ)
  datashape : List Nat

/-- The state right after `BaseModel.__init__` for a concrete model `m`
(subclasses may then install a mask and an `S0`). -/
def freshState {M : Type} (m : M) : BMState M :=
  { model := some m, models := none, mask := none, S0 := none, datashape := [] }

/-- Voxel selection at the top of `BaseModel.fit`: `data[self._mask, ...]`
when a mask is present, else `data.reshape(-1, data.shape[-1])`. -/
def selectVoxels {M : Type} (st : BMState M) (data : Vol4) : List (List ℚ) :=
  match st.mask with
  | some mk => maskSelect (flat3 mk) (flatVol data)
  | none => flatVol data

/-- `BaseModel.fit(data, n_jobs)`.  `n_jobs or 1` maps `None`/0 to 1.  With
one job the single model is fitted in place; with more, the voxel array is
`np.array_split` into `n_jobs` blocks, one model is fitted per block, the
block-indexed list is stored in `_models` and `_model` is set to `None`.
`none` models the `AttributeError` raised when `_model` is absent. -/
def baseFit {M : Type} (cap : DModel M) (st : BMState M) (data : Vol4)
    (n_jobs : Nat) : Option (BMState M) :=
  let nj := if n_jobs = 0 then 1 else n_jobs
  let dshape := shape4 data
  let d2 := selectVoxels st data
  match st.model with
  | none => none
  | some m =>
      if nj = 1 then
        some { st with model := some (cap.mfit m d2), datashape := dshape }
      else
        some { st with
          models := some ((arraySplit d2 nj).map (fun dblock => cap.mfit m dblock)),
          model := none,
          datashape := dshape }

/-- `n_models = len(self._models) if self._model is None and self._models
else 1` (an empty or absent `_models` list is falsy). -/
def nModels {M : Type} (st : BMState M) : Nat :=
  match st.model, st.models with
  | none, some ms => if ms.length = 0 then 1 else ms.length
  | _, _ => 1

/-- The per-chunk `S0` slices used by the chunked branch of
`BaseModel.predict`: `np.array_split(self._S0, n_models)` when `_S0` is set,
else a list of `None`. -/
def s0Chunks (s0 : Option (List ℚ)) (nm : Nat) : List (Option (List ℚ)) :=
  match s0 with
  | some s => (arraySplit s nm).map some
  | none => List.replicate nm none

/-- The parallel dispatch of the chunked `predict` branch: one
`_exec_predict` per (model, S0-slice) pair; the worker pool propagates the
first raised error and otherwise yields the block-indexed predictions. -/
def chunkPredict {M : Type} (cap : DModel M) (ms : List M)
    (gm : List (List ℚ)) (s0s : List (Option (List ℚ))) :
    Except String (List (List ℚ)) :=
  (ms.zip s0s).mapM (fun p => cap.mpredict p.1 gm p.2)

/-- The reassembly tail of `BaseModel.predict`: scatter into a zero array of
the mask's full spatial shape when a mask was used at fit time, else the flat
prediction stands for `predicted.reshape(self._datashape[:-1])`. -/
def reassemble (mask : Option Mask3) (predicted : List ℚ) : List ℚ :=
  match mask with
  | some mk => scatter (flat3 mk) predicted
  | none => predicted

/-- `BaseModel.predict(gradient)`: convert the gradient with `_rasb2dipy`,
derive `n_models` from the stored state, run the single fitted model or the
chunked dispatch (`np.hstack` concatenates the block results in block
order), then reassemble through the fit-time mask. -/
def basePredict {M : Type} (cap : DModel M) (st : BMState M) (g : RawGrad) :
    Except String (List ℚ) :=
  match rasb2dipy g with
  | Except.error e => Except.error e
  | Except.ok gw =>
      let gm := gw.1
      let nm := nModels st
      let pr : Except String (List ℚ) :=
        if nm = 1 then
          match st.model with
          | some m => cap.mpredict m gm st.S0
          | none => Except.error "AttributeError: NoneType object has no predict"
        else
          (chunkPredict cap (st.models.getD []) gm
            (s0Chunks st.S0 nm)).map List.flatten
      match pr with
      | Except.error e => Except.error e
      | Except.ok predicted => Except.ok (reassemble st.mask predicted)

/-- `np.percentile(l, q)` with the default linear interpolation, exactly over
rationals: with `s` the sorted data and `h = q (n-1) / 100`, the result is
`s[⌊h⌋] + (h - ⌊h⌋) (s[⌊h⌋+1] - s[⌊h⌋])`. -/
def percentileQ (q : ℚ) (l : List ℚ) : ℚ :=
  let s := l.insertionSort (fun a b => a ≤ b)
  let n := s.length
  let h : ℚ := q * ((n : ℚ) - 1) / 100
  let i := h.floor.toNat
  let lo := s.getD i 0
  let hi := s.getD (i + 1) lo
  lo + (h - (h.floor : ℚ)) * (hi - lo)

/-- `np.median`: the 50th percentile (middle entry for odd length, mean of
the two middle entries for even length). -/
def medianQ (l : List ℚ) : ℚ := percentileQ 50 l

/-- `np.mean` over a 1D list. -/
def meanQ (l : List ℚ) : ℚ := l.sum / (l.length : ℚ)

/-- The `AverageDWModel` constructor options with their source defaults:
`th_low=50`, `th_high=10000`, `bias=True`, `stat="median"`. -/
structure AvgCfg where
  th_low : ℚ := 50
  th_high : ℚ := 10000
  bias : Bool := true
  stat : String := "median"

/-- The b-value mask of `AverageDWModel.fit`: `(gtab[3] >= th_low) &
(gtab[3] <= th_high)` when a `gtab` keyword is given, else
`np.ones(data.shape[-1], dtype=bool)`. -/
def avgBMask (cfg : AvgCfg) (gtab : Option (List (List ℚ))) (nS : Nat) :
    List Bool :=
  match gtab with
  | some g => (g.getD 3 []).map (fun b => decide (cfg.th_low ≤ b) && decide (b ≤ cfg.th_high))
  | none => List.replicate nS true

/-- The bias-correction block of `AverageDWModel.fit` over the selected
samples (`shells`, one row per voxel, rows of length `nSel`): per-sample
spatial medians (`centers`), the 75th percentile of the medians ≥ 1.0
(`reference`), medians < 1.0 clamped to the reference, and each sample
rescaled by `reference / center`. -/
def avgBias (shells : List (List ℚ)) (nSel : Nat) : List (List ℚ) :=
  let centers := (List.range nSel).map (fun j => medianQ (shells.map (fun r => r.getD j 0)))
  let reference := percentileQ 75 (centers.filter (fun c => 1 ≤ c))
  let centers2 := centers.map (fun c => if c < 1 then reference else c)
  let drift := centers2.map (fun c => reference / c)
  shells.map (fun r => List.zipWith (fun a b => a * b) r drift)

/-- `AverageDWModel.fit(data, gtab=...)`: select the b-value interval,
optionally regress out the global signal drift, then store the per-voxel
summary statistic (`median` or `mean`) along the last axis.  The result is
the flattened stored map `_data` (one value per voxel). -/
def avgdwFit (cfg : AvgCfg) (gtab : Option (List (List ℚ))) (data : Vol4) :
    List ℚ :=
  let rows := flatVol data
  let bmask := avgBMask cfg gtab ((shape4 data).getD 3 0)
  let shells := rows.map (fun r => maskSelect bmask r)
  let shells2 := if cfg.bias then avgBias shells (bmask.count true) else shells
  shells2.map (fun r => if cfg.stat = "median" then medianQ r else meanQ r)

/-- `AverageDWModel.predict(gradient, **kwargs)`: return the stored map,
ignoring the gradient and every keyword argument. -/
def avgdwPredict (stored : List ℚ) (gradient : RawGrad)
    (kwargs : List (String × ℚ)) : List ℚ :=
  stored

/-- `TrivialB0Model.__init__`: raise `ValueError("S0 must be provided")` when
`S0` is `None`, else store it. -/
def trivialB0Init (S0 : Option (List ℚ)) : Except String (List ℚ) :=
  match S0 with
  | none => Except.error "S0 must be provided"
  | some s => Except.ok s

/-- `TrivialB0Model.fit(*args, **kwargs)`: do nothing (the stored state is
unchanged). -/
def trivialB0Fit (s : List ℚ) (data : Vol4) (kwargs : List (String × ℚ)) :
    List ℚ :=
  s

/-- `TrivialB0Model.predict(gradient, **kwargs)`: return the stored *b=0*
map unchanged. -/
def trivialB0Predict (s : List ℚ) (gradient : RawGrad)
    (kwargs : List (String × ℚ)) : List ℚ :=
  s

/-- `np.clip(x, a_min, a_max)` for one entry. -/
def clipQ (x lo hi : ℚ) : ℚ := min (max x lo) hi

/-- `np.max` of a 1D list (numpy raises on an empty array; 0 stands in). -/
def listMax (l : List ℚ) : ℚ :=
  match l with
  | [] => 0
  | x :: xs => xs.foldl max x

/-- The `S0`/mask initialisation of `DTIModel.__init__` (flattened arrays):
`_S0 = np.clip(S0 / S0.max(), 1e-5, 1.0)` when `S0` is given; `_mask` is
`mask > 0` when a mask is given, else `_S0 > np.percentile(_S0, 35)` when
`S0` is given; finally `_S0` is restricted to the mask.  Returns
`(_S0, _mask)`. -/
def dtiInit (S0 : Option (List ℚ)) (mask : Option (List ℚ)) :
    Option (List ℚ) × Option (List Bool) :=
  let s0n : Option (List ℚ) :=
    S0.map (fun s => s.map (fun x => clipQ (x / listMax s) (1 / 100000) 1))
  let mk : Option (List Bool) :=
    match mask with
    | some m => some (m.map (fun x => decide (0 < x)))
    | none =>
        match s0n with
        | some s => some (s.map (fun x => decide (percentileQ 35 s < x)))
        | none => none
  let s0f : Option (List ℚ) :=
    match s0n, mk with
    | some s, some m => some (maskSelect m s)
    | some s, none => some s
    | none, _ => none
  (s0f, mk)

/-- `DTIModel.predict(gradient, **kwargs)`: "Ensure no unsupported kwargs are
passed" — every keyword argument is discarded and the call delegates to
`BaseModel.predict(gradient)` (which then uses the stored `_S0`). -/
def dtiPredict {M : Type} (cap : DModel M) (st : BMState M) (g : RawGrad)
    (kwargs : List (String × List ℚ)) : Except String (List ℚ) :=
  basePredict cap st g

/-- A deterministic per-voxel capability: `fit` stores its data block and
`predict` maps `f` over the stored voxel rows.  This instantiates the
external-collaborator contract with a capability whose prediction is one
value per voxel, as the engine's reassembly assumes. -/
def vwCap (f : List ℚ → ℚ) : DModel (Option (List (List ℚ))) :=
  { mfit := fun _ d => some d
  , mpredict := fun m _ _ => Except.ok ((m.getD []).map f) }

theorem scatter_length (mask : List Bool) (vals : List ℚ) :
    (scatter mask vals).length = mask.length := by
  induction mask generalizing vals with
  | nil => rfl
  | cons b ms ih =>
      by_cases hb : b = true <;> simp [scatter, hb, ih]

theorem maskSelect_cons {α : Type} (b : Bool) (ms : List Bool) (x : α)
    (xs : List α) :
    maskSelect (b :: ms) (x :: xs) =
      if b then x :: maskSelect ms xs else maskSelect ms xs := by
  cases b <;> simp [maskSelect]

/-- Scattering the masked-selected values back through the same mask puts
`f` of the original entry at every `true` position and 0 elsewhere. -/
theorem scatter_maskSelect_getD (mask : List Bool) (l : List (List ℚ))
    (f : List ℚ → ℚ) (h : mask.length = l.length) :
    ∀ i, i < mask.length →
      (scatter mask ((maskSelect mask l).map f)).getD i 0 =
        if mask.getD i false then f (l.getD i []) else 0 := by
  induction mask generalizing l with
  | nil => intro i hi; simp at hi
  | cons b ms ih =>
      match l with
      | [] => simp at h
      | x :: xs =>
          intro i hi
          have hlen : ms.length = xs.length := by simpa using h
          rw [maskSelect_cons]
          match b, i with
          | true, 0 => simp [scatter]
          | true, Nat.succ j =>
              simp only [if_pos, List.map_cons, scatter, List.headD_cons,
                List.tail_cons, List.getD_cons_succ, if_true]
              exact ih xs hlen j (by simpa using hi)
          | false, 0 => simp [scatter]
          | false, Nat.succ j =>
              simp only [if_neg, scatter, List.getD_cons_succ, Bool.false_eq_true,
                not_false_eq_true, if_false]
              exact ih xs hlen j (by simpa using hi)

theorem flatten_length_const {α : Type} (l : List (List α)) (c : Nat)
    (h : ∀ e ∈ l, e.length = c) : l.flatten.length = l.length * c := by
  induction l with
  | nil => simp
  | cons e es ih =>
      simp only [List.flatten_cons, List.length_append, List.length_cons]
      rw [h e (by simp), ih (fun x hx => h x (by simp [hx]))]
      ring

/-- The number of voxel rows of a rectangular (x, y, z, ·) volume. -/
theorem flatVol_length (v : Vol4) (x y z : Nat) (hx : v.length = x)
    (hy : ∀ p ∈ v, p.length = y) (hz : ∀ p ∈ v, ∀ q ∈ p, q.length = z) :
    (flatVol v).length = x * y * z := by
  have h1 : v.flatten.length = x * y := by
    rw [flatten_length_const v y hy, hx]
  have h2 : ∀ e ∈ v.flatten, e.length = z := by
    intro e he
    rcases List.mem_flatten.mp he with ⟨p, hp, hep⟩
    exact hz p hp e hep
  rw [flatVol, flatten_length_const v.flatten z h2, h1]

theorem mapM_ok {α β : Type} (l : List α) (f : α → β) :
    (l.mapM (fun a => (Except.ok (f a) : Except String β))) =
      Except.ok (l.map f) := by
  induction l with
  | nil => rfl
  | cons a as ih =>
      rw [List.mapM_cons, ih]
      rfl

/-- With the per-voxel capability, the chunked dispatch succeeds and returns
`f` mapped over each block, in block order. -/
theorem chunkPredict_vw (f : List ℚ → ℚ) (chunks : List (List (List ℚ)))
    (gm : List (List ℚ)) (s0s : List (Option (List ℚ)))
    (h : chunks.length ≤ s0s.length) :
    chunkPredict (vwCap f) (chunks.map some) gm s0s =
      Except.ok (chunks.map (fun c => c.map f)) := by
  induction chunks generalizing s0s with
  | nil => rfl
  | cons c cs ih =>
      match s0s with
      | [] => simp at h
      | s :: ss =>
          have hle : cs.length ≤ ss.length := by simpa using h
          show ((((c :: cs).map some).zip (s :: ss)).mapM
              (fun p => (vwCap f).mpredict p.1 gm p.2)) = _
          rw [List.map_cons, List.zip_cons_cons, List.mapM_cons,
            show (((cs.map some).zip ss).mapM
                (fun p => (vwCap f).mpredict p.1 gm p.2)) =
              chunkPredict (vwCap f) (cs.map some) gm ss from rfl,
            ih ss hle]
          rfl

theorem s0Chunks_length (s0 : Option (List ℚ)) (nm : Nat) (hn : 1 ≤ nm) :
    (s0Chunks s0 nm).length = nm := by
  match s0 with
  | none => simp [s0Chunks]
  | some s => simp [s0Chunks, arraySplit_length s nm hn]

/-- The state of a just-initialised `BaseModel` subclass holding the unfitted
per-voxel capability, with an optional pre-installed mask. -/
def vwState0 (mask : Option Mask3) : BMState (Option (List (List ℚ))) :=
  ⟨some none, none, mask, none, []⟩

/-- `BaseModel.fit` with one job from a just-initialised state: the single
model is fitted over the selected voxels in place. -/
theorem fit_vw_one (f : List ℚ → ℚ) (mask : Option Mask3) (data : Vol4) :
    baseFit (vwCap f) (vwState0 mask) data 1 =
      some ⟨some (some (selectVoxels (vwState0 mask) data)),
        none, mask, none, shape4 data⟩ := rfl

/-- `BaseModel.fit` with `n ≥ 2` jobs from a just-initialised state: one
fitted model per `np.array_split` block, `_model` cleared. -/
theorem fit_vw_many (f : List ℚ → ℚ) (mask : Option Mask3) (data : Vol4)
    (n : Nat) (h2 : 2 ≤ n) :
    baseFit (vwCap f) (vwState0 mask) data n =
      some ⟨none,
        some ((arraySplit (selectVoxels (vwState0 mask) data) n).map some),
        mask, none, shape4 data⟩ := by
  have h0 : ¬(n = 0) := by omega
  have h1 : ¬(n = 1) := by omega
  simp only [baseFit, h0, if_false, h1, selectVoxels]
  rfl

/-- `BaseModel.predict` on a single-model state holding the per-voxel
capability fitted over `d2`. -/
theorem predict_vw_one (f : List ℚ → ℚ) (mask : Option Mask3)
    (d2 : List (List ℚ)) (ds : List Nat) (g : RawGrad) (gm : List (List ℚ))
    (w : Bool) (hg : rasb2dipy g = Except.ok (gm, w)) :
    basePredict (vwCap f) (⟨some (some d2), none, mask, none, ds⟩ :
        BMState (Option (List (List ℚ)))) g =
      Except.ok (reassemble mask (d2.map f)) := by
  simp only [basePredict, hg]
  rfl

/-- `BaseModel.predict` on a chunked state holding per-voxel models over the
given blocks: the block predictions are concatenated in block order. -/
theorem predict_vw_many (f : List ℚ → ℚ) (mask : Option Mask3)
    (chunks : List (List (List ℚ))) (ds : List Nat) (g : RawGrad)
    (gm : List (List ℚ)) (w : Bool) (hg : rasb2dipy g = Except.ok (gm, w))
    (h2 : 2 ≤ chunks.length) :
    basePredict (vwCap f) (⟨none, some (chunks.map some), mask, none, ds⟩ :
        BMState (Option (List (List ℚ)))) g =
      Except.ok (reassemble mask (chunks.flatten.map f)) := by
  have hne : ¬((chunks.map some).length = 0) := by
    rw [List.length_map]; omega
  have h1 : ¬((chunks.map some).length = 1) := by
    rw [List.length_map]; omega
  have hnm : nModels (⟨none, some (chunks.map some), mask, none, ds⟩ :
      BMState (Option (List (List ℚ)))) = chunks.length := by
    have h0 : ¬(chunks.length = 0) := by omega
    simp only [nModels, List.length_map, h0, if_false]
  have hcp := chunkPredict_vw f chunks gm
    (List.replicate chunks.length (none : Option (List ℚ))) (by simp)
  simp only [basePredict, hg, hnm]
  have hn1 : ¬(chunks.length = 1) := by omega
  simp only [hn1, if_false]
  rw [show (some (chunks.map some)).getD [] = chunks.map some from rfl,
    show s0Chunks (none : Option (List ℚ)) chunks.length =
      List.replicate chunks.length none from rfl, hcp]
  show Except.ok (reassemble mask (chunks.map (fun c => c.map f)).flatten) = _
  rw [← List.map_flatten]

/-- Fit with any concurrency `n ≥ 1` from a just-initialised state and then
predict: the result is `f` over every selected voxel row, reassembled
through the fit-time mask, independently of `n`. -/
theorem fitPredict_vw (f : List ℚ → ℚ) (mask : Option Mask3) (data : Vol4)
    (g : RawGrad) (gm : List (List ℚ)) (w : Bool)
    (hg : rasb2dipy g = Except.ok (gm, w)) (n : Nat) (hn : 1 ≤ n) :
    ∃ st', baseFit (vwCap f) (vwState0 mask) data n = some st' ∧
      basePredict (vwCap f) st' g =
        Except.ok (reassemble mask
          ((selectVoxels (vwState0 mask) data).map f)) := by
  by_cases h1 : n = 1
  · subst h1
    exact ⟨_, fit_vw_one f mask data,
      predict_vw_one f mask (selectVoxels (vwState0 mask) data)
        (shape4 data) g gm w hg⟩
  · have h2 : 2 ≤ n := by omega
    refine ⟨_, fit_vw_many f mask data n h2, ?_⟩
    have hchl : (arraySplit (selectVoxels (vwState0 mask) data) n).length = n :=
      arraySplit_length _ _ (by omega)
    have h := predict_vw_many f mask
      (arraySplit (selectVoxels (vwState0 mask) data) n)
      (shape4 data) g gm w hg (by omega)
    rw [arraySplit_join _ _ (by omega)] at h
    exact h

/-- C1: with concurrency `n > 1`, `BaseModel.fit` selects the voxels
(`volume[mask, :]` under a mask, else the 2D reshape flattening the spatial
axes), splits the 2D voxel array into `n` contiguous blocks by the
`np.array_split` rule (the first `len mod n` blocks get one extra row), fits
one model per block, stores the block-indexed list in `_models`, and sets
the combined model reference `_model` to `None`. -/
theorem C1_chunked_fit_splits_and_stores {M : Type} (cap : DModel M)
    (st : BMState M) (m : M) (data : Vol4) (n : Nat)
    (hm : st.model = some m) (hn : 1 < n) :
    ∃ st', baseFit cap st data n = some st' ∧
      st'.models = some ((arraySplit (selectVoxels st data) n).map
        (fun dblock => cap.mfit m dblock)) ∧
      st'.model = none ∧
      (arraySplit (selectVoxels st data) n).length = n ∧
      (∀ i, i < n → ((arraySplit (selectVoxels st data) n).getD i []).length =
        if i < (selectVoxels st data).length % n
        then (selectVoxels st data).length / n + 1
        else (selectVoxels st data).length / n) ∧
      (st.mask = none → selectVoxels st data = flatVol data) ∧
      (∀ mk, st.mask = some mk →
        selectVoxels st data = maskSelect (flat3 mk) (flatVol data)) := by
  have h0 : ¬(n = 0) := by omega
  have h1 : ¬(n = 1) := by omega
  have hfit : baseFit cap st data n = some { st with
      models := some ((arraySplit (selectVoxels st data) n).map
        (fun dblock => cap.mfit m dblock)),
      model := none, datashape := shape4 data } := by
    simp only [baseFit, hm, h0, if_false, h1]
  refine ⟨_, hfit, rfl, rfl, arraySplit_length _ _ (by omega),
    fun i hi => arraySplit_getD_length _ _ (by omega) i hi, ?_, ?_⟩
  · intro h
    simp [selectVoxels, h]
  · intro mk h
    simp [selectVoxels, h]

/-- Concrete 1×2×3×2 volume used by the witnesses. -/
def volW : Vol4 := [[[[1, 10], [2, 20], [3, 30]], [[4, 40], [5, 50], [6, 60]]]]

/-- Concrete per-voxel computation used by the witnesses: the first sample. -/
def fW : List ℚ → ℚ := fun r => r.getD 0 0

/-- Concrete valid gradient input used by the witnesses (shape (4, 1)). -/
def gW : RawGrad := RawGrad.two [[0], [0], [0], [1000]]

/-- Witness for C1: the chunked fit at the concrete volume `volW` with
concurrency 2. -/
theorem C1_chunked_fit_splits_and_stores_witness :
    (vwState0 none).model = some none ∧ 1 < 2 ∧
    (∃ st', baseFit (vwCap fW) (vwState0 none) volW 2 = some st' ∧
      st'.models = some ((arraySplit (selectVoxels (vwState0 none) volW) 2).map
        (fun dblock => (vwCap fW).mfit none dblock)) ∧
      st'.model = none ∧
      (arraySplit (selectVoxels (vwState0 none) volW) 2).length = 2 ∧
      (∀ i, i < 2 →
        ((arraySplit (selectVoxels (vwState0 none) volW) 2).getD i []).length =
        if i < (selectVoxels (vwState0 none) volW).length % 2
        then (selectVoxels (vwState0 none) volW).length / 2 + 1
        else (selectVoxels (vwState0 none) volW).length / 2) ∧
      ((vwState0 none).mask = none →
        selectVoxels (vwState0 none) volW = flatVol volW) ∧
      (∀ mk, (vwState0 none).mask = some mk →
        selectVoxels (vwState0 none) volW =
          maskSelect (flat3 mk) (flatVol volW))) :=
  ⟨rfl, by omega,
    C1_chunked_fit_splits_and_stores (vwCap fW) (vwState0 none) none volW 2
      rfl (by omega)⟩

/-- C2: for a rectangular volume and any concurrency in {1, 2, 3, 5},
fit-then-predict with the deterministic per-voxel capability succeeds, the
output has one value per voxel of the input spatial shape (`x*y*z` values),
the result equals the concurrency-1 result exactly, and splitting the voxel
array into chunks and reassembling them in chunk-index order reproduces the
original voxel order. -/
theorem C2_roundtrip_concurrency_invariant (f : List ℚ → ℚ) (data : Vol4)
    (x y z : Nat) (g : RawGrad) (gm : List (List ℚ)) (w : Bool) (n : Nat)
    (hx : data.length = x) (hy : ∀ p ∈ data, p.length = y)
    (hz : ∀ p ∈ data, ∀ q ∈ p, q.length = z)
    (hg : rasb2dipy g = Except.ok (gm, w))
    (hn : n ∈ ([1, 2, 3, 5] : List Nat)) :
    ∃ stn st1,
      baseFit (vwCap f) (vwState0 none) data n = some stn ∧
      baseFit (vwCap f) (vwState0 none) data 1 = some st1 ∧
      basePredict (vwCap f) stn g = Except.ok ((flatVol data).map f) ∧
      basePredict (vwCap f) st1 g = Except.ok ((flatVol data).map f) ∧
      ((flatVol data).map f).length = x * y * z ∧
      (arraySplit (flatVol data) n).flatten = flatVol data := by
  have hn1 : 1 ≤ n := by
    simp only [List.mem_cons, List.mem_singleton] at hn
    rcases hn with h | h | h | h | h <;> (first | omega | simp at h)
  obtain ⟨stn, hfn, hpn⟩ := fitPredict_vw f none data g gm w hg n hn1
  obtain ⟨st1, hf1, hp1⟩ := fitPredict_vw f none data g gm w hg 1 (by omega)
  have hres : reassemble none ((selectVoxels (vwState0 none) data).map f) =
      (flatVol data).map f := rfl
  rw [hres] at hpn hp1
  exact ⟨stn, st1, hfn, hf1, hpn, hp1,
    by rw [List.length_map, flatVol_length data x y z hx hy hz],
    arraySplit_join _ _ hn1⟩

/-- Witness for C2 at the concrete volume `volW` with concurrency 3. -/
theorem C2_roundtrip_concurrency_invariant_witness :
    volW.length = 1 ∧ (∀ p ∈ volW, p.length = 2) ∧
    (∀ p ∈ volW, ∀ q ∈ p, q.length = 3) ∧
    rasb2dipy gW = Except.ok ([[0], [0], [0], [1000]], false) ∧
    3 ∈ ([1, 2, 3, 5] : List Nat) ∧
    (∃ stn st1,
      baseFit (vwCap fW) (vwState0 none) volW 3 = some stn ∧
      baseFit (vwCap fW) (vwState0 none) volW 1 = some st1 ∧
      basePredict (vwCap fW) stn gW = Except.ok ((flatVol volW).map fW) ∧
      basePredict (vwCap fW) st1 gW = Except.ok ((flatVol volW).map fW) ∧
      ((flatVol volW).map fW).length = 1 * 2 * 3 ∧
      (arraySplit (flatVol volW) 3).flatten = flatVol volW) :=
  ⟨rfl, by decide, by decide, rfl, by decide,
    C2_roundtrip_concurrency_invariant fW volW 1 2 3 gW
      [[0], [0], [0], [1000]] false 3 rfl (by decide) (by decide) rfl
      (by decide)⟩

/-- C3: after a fit that used a mask, predict scatters the concatenated
per-voxel predictions into a zero-initialised array of the mask's full
spatial extent: every voxel outside the mask is exactly zero and every voxel
inside equals the unmasked computation for that voxel; without a mask the
concatenated prediction is the per-voxel map over the flattened spatial
shape (the gradient axis dropped). -/
theorem C3_mask_scatter_predict (f : List ℚ → ℚ) (mk : Mask3) (data : Vol4)
    (g : RawGrad) (gm : List (List ℚ)) (w : Bool) (n : Nat)
    (hg : rasb2dipy g = Except.ok (gm, w)) (hn : 1 ≤ n)
    (hlen : (flat3 mk).length = (flatVol data).length) :
    ∃ st' out,
      baseFit (vwCap f) (vwState0 (some mk)) data n = some st' ∧
      basePredict (vwCap f) st' g = Except.ok out ∧
      out.length = (flat3 mk).length ∧
      (∀ i, i < (flat3 mk).length → (flat3 mk).getD i false = false →
        out.getD i 0 = 0) ∧
      (∀ i, i < (flat3 mk).length → (flat3 mk).getD i false = true →
        out.getD i 0 = f ((flatVol data).getD i [])) ∧
      (∃ st2, baseFit (vwCap f) (vwState0 none) data n = some st2 ∧
        basePredict (vwCap f) st2 g =
          Except.ok ((flatVol data).map f)) := by
  obtain ⟨st', hf, hp⟩ := fitPredict_vw f (some mk) data g gm w hg n hn
  have hsel : selectVoxels (vwState0 (some mk)) data =
      maskSelect (flat3 mk) (flatVol data) := rfl
  have hout : reassemble (some mk)
      ((selectVoxels (vwState0 (some mk)) data).map f) =
      scatter (flat3 mk) ((maskSelect (flat3 mk) (flatVol data)).map f) := by
    rw [reassemble, hsel]
  rw [hout] at hp
  obtain ⟨st2, hf2, hp2⟩ := fitPredict_vw f none data g gm w hg n hn
  have hres2 : reassemble none ((selectVoxels (vwState0 none) data).map f) =
      (flatVol data).map f := rfl
  rw [hres2] at hp2
  refine ⟨st', _, hf, hp, scatter_length _ _, ?_, ?_, st2, hf2, hp2⟩
  · intro i hi hfalse
    rw [scatter_maskSelect_getD (flat3 mk) (flatVol data) f hlen i hi, hfalse]
    simp
  · intro i hi htrue
    rw [scatter_maskSelect_getD (flat3 mk) (flatVol data) f hlen i hi, htrue]
    simp

/-- Concrete mask over `volW`'s spatial extent selecting voxels 0, 2, 4. -/
def mkW : Mask3 := [[[true, false, true], [false, true, false]]]

/-- Witness for C3 at the concrete volume `volW`, mask `mkW`, concurrency 2. -/
theorem C3_mask_scatter_predict_witness :
    rasb2dipy gW = Except.ok ([[0], [0], [0], [1000]], false) ∧ 1 ≤ 2 ∧
    (flat3 mkW).length = (flatVol volW).length ∧
    (∃ st' out,
      baseFit (vwCap fW) (vwState0 (some mkW)) volW 2 = some st' ∧
      basePredict (vwCap fW) st' gW = Except.ok out ∧
      out.length = (flat3 mkW).length ∧
      (∀ i, i < (flat3 mkW).length → (flat3 mkW).getD i false = false →
        out.getD i 0 = 0) ∧
      (∀ i, i < (flat3 mkW).length → (flat3 mkW).getD i false = true →
        out.getD i 0 = fW ((flatVol volW).getD i [])) ∧
      (∃ st2, baseFit (vwCap fW) (vwState0 none) volW 2 = some st2 ∧
        basePredict (vwCap fW) st2 gW =
          Except.ok ((flatVol volW).map fW))) :=
  ⟨rfl, by omega, by decide,
    C3_mask_scatter_predict fW mkW volW gW [[0], [0], [0], [1000]] false 2
      rfl (by omega) (by decide)⟩

/-- A capability whose per-chunk predict fails (like a singular fit on a
degenerate voxel block) whenever the chunk holds a row starting with 0, and
otherwise returns the first sample of each voxel. -/
def failCap : DModel (Option (List (List ℚ))) :=
  { mfit := fun _ d => some d
  , mpredict := fun m _ _ =>
      if (m.getD []).any (fun r => decide (r.getD 0 0 = 0))
      then Except.error "singular matrix"
      else Except.ok ((m.getD []).map (fun r => r.getD 0 0)) }

/-- 1×1×2×1 volume whose FIRST voxel block is degenerate under `failCap`. -/
def volA : Vol4 := [[[[0], [1]]]]

/-- 1×1×2×1 volume whose SECOND voxel block is degenerate under `failCap`. -/
def volB : Vol4 := [[[[1], [0]]]]

/-- C4, counterexample: after a 2-chunk fit, a failure in block 0 (`volA`)
and a failure in block 1 (`volB`) surface as the *same* error value
`"singular matrix"` — the propagated error carries no chunk index, so error
messages do not identify the index of the failing chunk. -/
theorem C4_counterexample :
    (∃ stA, baseFit failCap (vwState0 none) volA 2 = some stA ∧
      basePredict failCap stA gW = Except.error "singular matrix") ∧
    (∃ stB, baseFit failCap (vwState0 none) volB 2 = some stB ∧
      basePredict failCap stB gW = Except.error "singular matrix") ∧
    failCap.mpredict (some ((arraySplit (flatVol volA) 2).getD 0 []))
      [[0], [0], [0], [1000]] none = Except.error "singular matrix" ∧
    failCap.mpredict (some ((arraySplit (flatVol volA) 2).getD 1 []))
      [[0], [0], [0], [1000]] none = Except.ok [1] ∧
    failCap.mpredict (some ((arraySplit (flatVol volB) 2).getD 0 []))
      [[0], [0], [0], [1000]] none = Except.ok [1] ∧
    failCap.mpredict (some ((arraySplit (flatVol volB) 2).getD 1 []))
      [[0], [0], [0], [1000]] none = Except.error "singular matrix" :=
  ⟨⟨_, rfl, rfl⟩, ⟨_, rfl, rfl⟩, rfl, rfl, rfl, rfl⟩

/-- C4, amended: the chunk count `BaseModel.predict` uses is exactly the
length of the model list recorded during fit (`n` after an `n`-chunk fit) —
predict never re-derives a different parallelism degree, so a fit/predict
chunk-count mismatch cannot arise; and a failing chunk's underlying error is
propagated to the caller unchanged, with no chunk-index annotation. -/
theorem C4_predict_uses_fit_chunk_count {M : Type} (cap : DModel M)
    (st : BMState M) (m : M) (data : Vol4) (n : Nat)
    (hm : st.model = some m) (hn : 1 < n) :
    ∃ st', baseFit cap st data n = some st' ∧
      nModels st' = n ∧
      (∀ g gm w e, rasb2dipy g = Except.ok (gm, w) →
        chunkPredict cap
          ((arraySplit (selectVoxels st data) n).map
            (fun dblock => cap.mfit m dblock)) gm (s0Chunks st.S0 n) =
          Except.error e →
        basePredict cap st' g = Except.error e) := by
  have h0 : ¬(n = 0) := by omega
  have h1 : ¬(n = 1) := by omega
  have hfit : baseFit cap st data n = some { st with
      models := some ((arraySplit (selectVoxels st data) n).map
        (fun dblock => cap.mfit m dblock)),
      model := none, datashape := shape4 data } := by
    simp only [baseFit, hm, h0, if_false, h1]
  have hlen : ((arraySplit (selectVoxels st data) n).map
      (fun dblock => cap.mfit m dblock)).length = n := by
    rw [List.length_map, arraySplit_length _ _ (by omega)]
  have hnm : nModels { st with
      models := some ((arraySplit (selectVoxels st data) n).map
        (fun dblock => cap.mfit m dblock)),
      model := none, datashape := shape4 data } = n := by
    simp only [nModels, hlen, h0, if_false]
  refine ⟨_, hfit, hnm, ?_⟩
  intro g gm w e hg herr
  simp only [basePredict, hg, hnm, h1, if_false, Option.getD_some]
  rw [herr]
  rfl

/-- Witness for the amended C4 at the concrete volume `volA`, concurrency 2.
The inner propagation clause is exercised by `C4_counterexample`. -/
theorem C4_predict_uses_fit_chunk_count_witness :
    (vwState0 none).model = some none ∧ 1 < 2 ∧
    (∃ st', baseFit failCap (vwState0 none) volA 2 = some st' ∧
      nModels st' = 2 ∧
      (∀ g gm w e, rasb2dipy g = Except.ok (gm, w) →
        chunkPredict failCap
          ((arraySplit (selectVoxels (vwState0 none) volA) 2).map
            (fun dblock => failCap.mfit none dblock)) gm
          (s0Chunks (vwState0 none).S0 2) = Except.error e →
        basePredict failCap st' g = Except.error e)) :=
  ⟨rfl, by omega,
    C4_predict_uses_fit_chunk_count failCap (vwState0 none) none volA 2
      rfl (by omega)⟩

/-- C6: `TrivialB0Model` construction without `S0` fails with
`ValueError("S0 must be provided")`; with a baseline supplied, `fit` is a
no-op and `predict` returns the stored baseline unchanged for every gradient
spec and every extra argument. -/
theorem C6_trivial_baseline :
    trivialB0Init none = Except.error "S0 must be provided" ∧
    (∀ s, trivialB0Init (some s) = Except.ok s) ∧
    (∀ s data kwargs, trivialB0Fit s data kwargs = s) ∧
    (∀ s g kwargs, trivialB0Predict s g kwargs = s) :=
  ⟨rfl, fun _ => rfl, fun _ _ _ => rfl, fun _ _ _ => rfl⟩

/-- C8: the gradient adapter errors on a 1D input whose size is not 4,
transposes a 2D input whose first dimension is not 4 (without warning), and
on a (4, 4) input warns without transposing and without raising. -/
theorem C8_rasb_adapter :
    (∀ v : List ℚ, v.length ≠ 4 →
      rasb2dipy (RawGrad.one v) = Except.error "Missing gradient information.") ∧
    (∀ m : List (List ℚ), m.length ≠ 4 →
      rasb2dipy (RawGrad.two m) = Except.ok (m.transpose, false)) ∧
    (∀ m : List (List ℚ), m.length = 4 → (∀ r ∈ m, r.length = 4) →
      rasb2dipy (RawGrad.two m) = Except.ok (m, true)) := by
  refine ⟨?_, ?_, ?_⟩
  · intro v h
    simp [rasb2dipy, h]
  · intro m h
    simp [rasb2dipy, rasbFinish, h]
  · intro m h4 hrows
    match m, h4 with
    | a :: rest, h4 =>
        have ha : a.length = 4 := hrows a (by simp)
        simp [rasb2dipy, rasbFinish, h4, ha]

/-- Witness for C8: a size-3 1D input, a (2, 4) input, and a (4, 4) input. -/
theorem C8_rasb_adapter_witness :
    rasb2dipy (RawGrad.one [1, 2, 3]) =
      Except.error "Missing gradient information." ∧
    rasb2dipy (RawGrad.two [[1, 2, 3, 4], [5, 6, 7, 8]]) =
      Except.ok ([[1, 5], [2, 6], [3, 7], [4, 8]], false) ∧
    rasb2dipy (RawGrad.two
        [[1, 2, 3, 4], [5, 6, 7, 8], [9, 10, 11, 12], [13, 14, 15, 16]]) =
      Except.ok ([[1, 2, 3, 4], [5, 6, 7, 8], [9, 10, 11, 12],
        [13, 14, 15, 16]], true) := by
  refine ⟨C8_rasb_adapter.1 [1, 2, 3] (by decide), ?_, ?_⟩
  · rw [C8_rasb_adapter.2.1 [[1, 2, 3, 4], [5, 6, 7, 8]] (by decide)]
    rfl
  · exact C8_rasb_adapter.2.2
      [[1, 2, 3, 4], [5, 6, 7, 8], [9, 10, 11, 12], [13, 14, 15, 16]]
      (by decide) (by decide)

/-- C9: calling `AverageDWModel.fit` without a `gtab` keyword selects every
gradient sample (the b-value mask defaults to all-true), so the configured
b-value thresholds have no effect on the stored average. -/
theorem C9_no_gtab_selects_all (cfg1 cfg2 : AvgCfg) (data : Vol4) (nS : Nat)
    (hbias : cfg1.bias = cfg2.bias) (hstat : cfg1.stat = cfg2.stat) :
    avgBMask cfg1 none nS = List.replicate nS true ∧
    avgdwFit cfg1 none data = avgdwFit cfg2 none data := by
  refine ⟨rfl, ?_⟩
  simp only [avgdwFit, avgBMask, hbias, hstat]

/-- Witness for C9: thresholds 50/10000 vs 0/1 give the same average of
`volW` when no `gtab` is passed. -/
theorem C9_no_gtab_selects_all_witness :
    (({} : AvgCfg).bias = ({ th_low := 0, th_high := 1 } : AvgCfg).bias) ∧
    (({} : AvgCfg).stat = ({ th_low := 0, th_high := 1 } : AvgCfg).stat) ∧
    (avgBMask {} none 7 = List.replicate 7 true ∧
      avgdwFit {} none volW =
        avgdwFit { th_low := 0, th_high := 1 } none volW) :=
  ⟨rfl, rfl,
    C9_no_gtab_selects_all {} { th_low := 0, th_high := 1 } volW 7 rfl rfl⟩

/-- C10: `DTIModel.predict` discards every keyword argument (including a
per-voxel `S0`) before delegating to `BaseModel.predict`, so any two
keyword-argument sets give equal results. -/
theorem C10_dti_predict_ignores_kwargs {M : Type} (cap : DModel M)
    (st : BMState M) (g : RawGrad) (k1 k2 : List (String × List ℚ)) :
    dtiPredict cap st g k1 = dtiPredict cap st g k2 ∧
    dtiPredict cap st g k1 = basePredict cap st g :=
  ⟨rfl, rfl⟩

theorem getD_map_general {α β : Type} (f : α → β) (l : List α) (j : Nat)
    (d : β) (dflt : α) (hj : j < l.length) :
    (l.map f).getD j d = f (l.getD j dflt) := by
  have h1 : j < (l.map f).length := by rw [List.length_map]; exact hj
  rw [List.getD_eq_getElem?_getD, List.getD_eq_getElem?_getD,
    List.getElem?_eq_getElem h1, List.getElem?_eq_getElem hj]
  simp

theorem maskSelect_length {α : Type} (mask : List Bool) (l : List α)
    (h : mask.length = l.length) :
    (maskSelect mask l).length = mask.count true := by
  induction mask generalizing l with
  | nil => rfl
  | cons b ms ih =>
      match l with
      | [] => simp at h
      | x :: xs =>
          have h2 : ms.length = xs.length := by simpa using h
          rw [maskSelect_cons]
          cases b <;> simp [ih xs h2, List.count_cons]

theorem zipWith_mul_eq_range (r d : List ℚ) (n : Nat) (hr : r.length = n)
    (hd : d.length = n) :
    List.zipWith (fun a b => a * b) r d =
      (List.range n).map (fun j => d.getD j 0 * r.getD j 0) := by
  apply List.ext_getElem
  · simp [hr, hd]
  · intro j h1 h2
    have hj : j < n := by
      simpa [hr, hd] using h1
    have hjr : j < r.length := by omega
    have hjd : j < d.length := by omega
    simp only [List.getElem_zipWith, List.getElem_map, List.getElem_range,
      List.getD_eq_getElem?_getD, List.getElem?_eq_getElem hjr,
      List.getElem?_eq_getElem hjd, Option.getD_some]
    ring

/-- C5: over the flattened voxels, `AverageDWModel.fit` with a `gtab` selects
the samples whose b-value lies in the closed interval `[th_low, th_high]`
(defaults 50 and 10000); with bias correction on (the default) each selected
sample `j` is rescaled by `reference / center_j`, where `center_j` is the
sample's spatial median clamped up to `reference` when below 1.0 and
`reference` is the 75th percentile of the medians ≥ 1.0; the per-voxel
median (or mean, per `stat`) over the rescaled samples is stored, and
`predict` returns the stored map unchanged for every gradient spec. -/
theorem C5_shell_average_fit (cfg : AvgCfg) (g : List (List ℚ)) (data : Vol4)
    (bvals : List ℚ) (bmask : List Bool) (nSel : Nat)
    (shells : List (List ℚ)) (centers : List ℚ) (reference : ℚ)
    (hbias : cfg.bias = true)
    (hbv : bvals = g.getD 3 [])
    (hbm : bmask = avgBMask cfg (some g) ((shape4 data).getD 3 0))
    (hns : nSel = bmask.count true)
    (hsh : shells = (flatVol data).map (fun r => maskSelect bmask r))
    (hc : centers = (List.range nSel).map
      (fun j => medianQ (shells.map (fun r => r.getD j 0))))
    (href : reference = percentileQ 75 (centers.filter (fun c => 1 ≤ c)))
    (hrect : ∀ r ∈ flatVol data, r.length = bvals.length)
    (hcent : centers.filter (fun c => 1 ≤ c) ≠ []) :
    (∀ j, j < bvals.length →
      (bmask.getD j false = true ↔
        (cfg.th_low ≤ bvals.getD j 0 ∧ bvals.getD j 0 ≤ cfg.th_high))) ∧
    (({} : AvgCfg).th_low = 50 ∧ ({} : AvgCfg).th_high = 10000 ∧
      ({} : AvgCfg).bias = true ∧ ({} : AvgCfg).stat = "median") ∧
    (avgdwFit cfg (some g) data =
      shells.map (fun selRow =>
        (fun scaled =>
          if cfg.stat = "median" then medianQ scaled else meanQ scaled)
          ((List.range nSel).map (fun j =>
            (reference /
              (if centers.getD j 0 < 1 then reference else centers.getD j 0)) *
            selRow.getD j 0)))) ∧
    (∀ stored g1 g2 k1 k2,
      avgdwPredict stored g1 k1 = avgdwPredict stored g2 k2) := by
  subst href hc hsh hns hbm hbv
  refine ⟨?_, ⟨rfl, rfl, rfl, rfl⟩, ?_, fun _ _ _ _ _ => rfl⟩
  · intro j hj
    rw [show avgBMask cfg (some g) ((shape4 data).getD 3 0) =
        (g.getD 3 []).map (fun b =>
          decide (cfg.th_low ≤ b) && decide (b ≤ cfg.th_high)) from rfl,
      getD_map_general _ _ j false 0 hj]
    simp
  · have hlenbm : (avgBMask cfg (some g) ((shape4 data).getD 3 0)).length =
        (g.getD 3 []).length := by
      rw [show avgBMask cfg (some g) ((shape4 data).getD 3 0) =
          (g.getD 3 []).map (fun b =>
            decide (cfg.th_low ≤ b) && decide (b ≤ cfg.th_high)) from rfl,
        List.length_map]
    set bmask := avgBMask cfg (some g) ((shape4 data).getD 3 0) with hbmdef
    set nSel := bmask.count true with hnsdef
    set shells := (flatVol data).map (fun r => maskSelect bmask r) with hshdef
    set centers := (List.range nSel).map
      (fun j => medianQ (shells.map (fun r => r.getD j 0))) with hcdef
    set reference := percentileQ 75 (centers.filter (fun c => 1 ≤ c)) with hrefdef
    set centers2 := centers.map
      (fun c => if c < 1 then reference else c) with hc2def
    set drift := centers2.map (fun c => reference / c) with hddef
    have hstep : avgdwFit cfg (some g) data =
        (shells.map (fun r => List.zipWith (fun a b => a * b) r drift)).map
          (fun r => if cfg.stat = "median" then medianQ r else meanQ r) := by
      rw [avgdwFit, hbias]
      rfl
    rw [hstep, List.map_map, List.map_congr_left]
    intro selRow hsel
    obtain ⟨row, hrow, rfl⟩ := List.mem_map.mp hsel
    have hrl : (maskSelect bmask row).length = nSel := by
      rw [maskSelect_length bmask row (by rw [hlenbm, hrect row hrow])]
    have hdl : drift.length = nSel := by
      rw [hddef, List.length_map, hc2def, List.length_map, hcdef,
        List.length_map, List.length_range]
    show (if cfg.stat = "median"
        then medianQ (List.zipWith (fun a b => a * b) (maskSelect bmask row) drift)
        else meanQ (List.zipWith (fun a b => a * b) (maskSelect bmask row) drift)) = _
    rw [zipWith_mul_eq_range (maskSelect bmask row) drift nSel hrl hdl,
      List.map_congr_left (fun j hj => ?_)]
    have hjn : j < nSel := List.mem_range.mp hj
    have hjc : j < centers.length := by
      rw [hcdef, List.length_map, List.length_range]; exact hjn
    have hjc2 : j < centers2.length := by
      rw [hc2def, List.length_map]; exact hjc
    rw [hddef, getD_map_general _ _ j 0 0 hjc2, hc2def,
      getD_map_general _ _ j 0 0 hjc]

/-- Concrete (4, 2) gradient table used by the C5 witness. -/
def g5 : List (List ℚ) := [[0, 0], [0, 0], [0, 0], [100, 1000]]

set_option maxHeartbeats 2000000 in
/-- Witness for C5 at the concrete volume `volW` and gradient table `g5`. -/
theorem C5_shell_average_fit_witness :
    (({} : AvgCfg).bias = true ∧
      ([100, 1000] : List ℚ) = g5.getD 3 [] ∧
      ([true, true] : List Bool) = avgBMask {} (some g5) ((shape4 volW).getD 3 0) ∧
      2 = ([true, true] : List Bool).count true ∧
      ([[1, 10], [2, 20], [3, 30], [4, 40], [5, 50], [6, 60]] : List (List ℚ)) =
        (flatVol volW).map (fun r => maskSelect [true, true] r) ∧
      ([7 / 2, 35] : List ℚ) = (List.range 2).map (fun j => medianQ
        (([[1, 10], [2, 20], [3, 30], [4, 40], [5, 50], [6, 60]] :
          List (List ℚ)).map (fun r => r.getD j 0))) ∧
      (217 / 8 : ℚ) = percentileQ 75 (([7 / 2, 35] : List ℚ).filter (fun c => 1 ≤ c)) ∧
      (∀ r ∈ flatVol volW, r.length = ([100, 1000] : List ℚ).length) ∧
      ([7 / 2, 35] : List ℚ).filter (fun c => 1 ≤ c) ≠ []) ∧
    ((∀ j, j < ([100, 1000] : List ℚ).length →
      (([true, true] : List Bool).getD j false = true ↔
        (({} : AvgCfg).th_low ≤ ([100, 1000] : List ℚ).getD j 0 ∧
          ([100, 1000] : List ℚ).getD j 0 ≤ ({} : AvgCfg).th_high))) ∧
    (({} : AvgCfg).th_low = 50 ∧ ({} : AvgCfg).th_high = 10000 ∧
      ({} : AvgCfg).bias = true ∧ ({} : AvgCfg).stat = "median") ∧
    (avgdwFit {} (some g5) volW =
      ([[1, 10], [2, 20], [3, 30], [4, 40], [5, 50], [6, 60]] :
        List (List ℚ)).map (fun selRow =>
        (fun scaled =>
          if ({} : AvgCfg).stat = "median" then medianQ scaled else meanQ scaled)
          ((List.range 2).map (fun j =>
            ((217 / 8 : ℚ) /
              (if ([7 / 2, 35] : List ℚ).getD j 0 < 1 then (217 / 8 : ℚ)
               else ([7 / 2, 35] : List ℚ).getD j 0)) *
            selRow.getD j 0)))) ∧
    (∀ stored g1 g2 k1 k2,
      avgdwPredict stored g1 k1 = avgdwPredict stored g2 k2)) :=
  ⟨⟨rfl, rfl, by norm_num [avgBMask, g5], by decide,
      by norm_num [flatVol, volW, maskSelect],
      by norm_num [medianQ, percentileQ, List.insertionSort, List.orderedInsert,
        Rat.floor_def', List.range_succ, Int.toNat, List.getElem_cons_succ,
        List.getElem_cons_zero],
      by norm_num [percentileQ, List.insertionSort, List.orderedInsert,
        Rat.floor_def'],
      by decide, by simp⟩,
    C5_shell_average_fit {} g5 volW [100, 1000] [true, true] 2
      [[1, 10], [2, 20], [3, 30], [4, 40], [5, 50], [6, 60]] [7 / 2, 35]
      (217 / 8) rfl rfl (by norm_num [avgBMask, g5]) (by decide)
      (by norm_num [flatVol, volW, maskSelect])
      (by norm_num [medianQ, percentileQ, List.insertionSort, List.orderedInsert,
        Rat.floor_def', List.range_succ, Int.toNat, List.getElem_cons_succ,
        List.getElem_cons_zero])
      (by norm_num [percentileQ, List.insertionSort, List.orderedInsert,
        Rat.floor_def'])
      (by decide) (by simp)⟩

/-- C7: for a delegated model (`DTIModel`) given a baseline `S0` and no
explicit mask, the stored baseline is `S0 / S0.max()` clipped to the closed
interval `[1e-5, 1.0]`, restricted to the default mask; the default mask
retains exactly the voxels whose normalised value exceeds the 35th
percentile of the normalised baseline. -/
theorem C7_dti_baseline_normalisation (s s0n : List ℚ) (msk : List Bool)
    (hmax : listMax s ≠ 0)
    (hs0n : s0n = s.map (fun x => clipQ (x / listMax s) (1 / 100000) 1))
    (hmsk : msk = s0n.map (fun x => decide (percentileQ 35 s0n < x))) :
    dtiInit (some s) none = (some (maskSelect msk s0n), some msk) ∧
    (∀ x ∈ s0n, 1 / 100000 ≤ x ∧ x ≤ 1) ∧
    (∀ i, i < s.length →
      (msk.getD i false = true ↔ percentileQ 35 s0n < s0n.getD i 0)) := by
  subst hmsk hs0n
  refine ⟨rfl, ?_, ?_⟩
  · intro x hx
    obtain ⟨v, hv, rfl⟩ := List.mem_map.mp hx
    constructor
    · apply le_min
      · exact le_max_right _ _
      · norm_num
    · exact min_le_right _ _
  · intro i hi
    have hi2 : i < (s.map (fun x => clipQ (x / listMax s) (1 / 100000) 1)).length := by
      rw [List.length_map]; exact hi
    rw [getD_map_general _ _ i false 0 hi2]
    simp

/-- Witness for C7 at the concrete baseline `[1, 2, 3, 4]`. -/
theorem C7_dti_baseline_normalisation_witness :
    (listMax [1, 2, 3, 4] ≠ 0 ∧
      ([1 / 4, 1 / 2, 3 / 4, 1] : List ℚ) =
        ([1, 2, 3, 4] : List ℚ).map
          (fun x => clipQ (x / listMax [1, 2, 3, 4]) (1 / 100000) 1) ∧
      ([false, false, true, true] : List Bool) =
        ([1 / 4, 1 / 2, 3 / 4, 1] : List ℚ).map
          (fun x => decide (percentileQ 35 [1 / 4, 1 / 2, 3 / 4, 1] < x))) ∧
    (dtiInit (some [1, 2, 3, 4]) none =
      (some (maskSelect [false, false, true, true] [1 / 4, 1 / 2, 3 / 4, 1]),
        some [false, false, true, true]) ∧
    (∀ x ∈ ([1 / 4, 1 / 2, 3 / 4, 1] : List ℚ), 1 / 100000 ≤ x ∧ x ≤ 1) ∧
    (∀ i, i < ([1, 2, 3, 4] : List ℚ).length →
      (([false, false, true, true] : List Bool).getD i false = true ↔
        percentileQ 35 [1 / 4, 1 / 2, 3 / 4, 1] <
          ([1 / 4, 1 / 2, 3 / 4, 1] : List ℚ).getD i 0))) :=
  ⟨⟨by norm_num [listMax], by norm_num [clipQ, listMax],
      by norm_num [percentileQ, List.insertionSort, List.orderedInsert,
        Rat.floor_def', Int.toNat, List.getElem_cons_succ,
        List.getElem_cons_zero]⟩,
    C7_dti_baseline_normalisation [1, 2, 3, 4] [1 / 4, 1 / 2, 3 / 4, 1]
      [false, false, true, true] (by norm_num [listMax])
      (by norm_num [clipQ, listMax])
      (by norm_num [percentileQ, List.insertionSort, List.orderedInsert,
        Rat.floor_def', Int.toNat, List.getElem_cons_succ,
        List.getElem_cons_zero])⟩

end Eddymotion
